import Mathlib

/-!
Verification of the billing subsystem of the inventory backend.

The definitions below are a shallow embedding of the Python source:
`app/models/billing.py` (the `Bill`, `BillItem`, `Payment` models and
`Bill.calculate_totals`) and `app/routes/billing_routes.py` (the route
handlers `create_bill`, `cancel_bill`, `void_bill_item`,
`complete_bill_item`, `generate_unique_bill_number`).

Modelling choices:
- Python floats that hold money are modelled as `ℚ` (the claims are about
  the arithmetic structure of the computations, not float rounding);
  Python ints (quantities, ids) as `Int` / `Nat`.
- The SQLAlchemy session is modelled by explicit state passing on a `DB`
  record.  A route that returns an error before `db.session.commit()` has
  run leaves the committed state unchanged, which is exactly what
  `db.session.rollback()` does to an uncommitted session.
- Status fields are the literal strings the source uses
  (`"pending"`, `"completed"`, `"refunded"`, ...).
-/

/-- Product row (`app/models/product.py`): the fields the billing logic
reads and writes. `quantity` is the stock on hand. -/

structure Product where
  id : Nat
  name : String
  sell_price : ℚ
  quantity : Int
deriving DecidableEq

/-- BillItem row (`app/models/billing.py`, class `BillItem`): snapshot of
the product at billing time plus the item lifecycle status. -/

structure BillItem where
  id : Nat
  bill_id : Nat
  product_id : Nat
  product_name : String
  sell_price : ℚ
  quantity : Int
  total : ℚ
  item_status : String
deriving DecidableEq

/-- Bill row (`app/models/billing.py`, class `Bill`) with its owned items
(the `items` relationship). Customer and timestamp columns are omitted:
no claim mentions them. -/

structure Bill where
  id : Nat
  subtotal : ℚ
  discount : ℚ
  discount_type : String
  tax : ℚ
  tax_type : String
  total : ℚ
  paid_amount : ℚ
  change_amount : ℚ
  payment_method : String
  payment_status : String
  items : List BillItem
deriving DecidableEq

/-- Payment row (`app/models/billing.py`, class `Payment`). -/

structure Payment where
  bill_id : Nat
  payment_id : String
  amount : ℚ
  method : String
  status : String
deriving DecidableEq

/-- The committed database state the billing routes read and write. -/

structure DB where
  products : List Product
  bills : List Bill
  payments : List Payment
deriving DecidableEq

/-- Embedding of `Bill.calculate_totals` (`app/models/billing.py`,
lines 55-80), statement by statement. -/

def calculate_totals (b : Bill) : Bill :=
  let subtotal := (b.items.map BillItem.total).sum
  let discount_amount :=
    if b.discount_type = "percentage" then subtotal * b.discount / 100 else b.discount
  let tax_amount :=
    if b.tax_type = "percentage" then (subtotal - discount_amount) * b.tax / 100 else b.tax
  let total := subtotal - discount_amount + tax_amount
  let change_amount := max 0 (b.paid_amount - total)
  let payment_status :=
    if b.paid_amount ≥ total then "paid"
    else if b.paid_amount > 0 then "partial"
    else "pending"
  { b with
    subtotal := subtotal
    total := total
    change_amount := change_amount
    payment_status := payment_status }

/-- The discount amount the spec formula prescribes for a bill with
subtotal `s` (spec §4.1). -/

def spec_discount_amount (s : ℚ) (discount : ℚ) (discount_type : String) : ℚ :=
  if discount_type = "percentage" then s * discount / 100 else discount

/-- The tax amount the spec formula prescribes on the post-discount base
`s - d` (spec §4.1). -/

def spec_tax_amount (s d : ℚ) (tax : ℚ) (tax_type : String) : ℚ :=
  if tax_type = "percentage" then (s - d) * tax / 100 else tax

/-- Lookup of a product row by primary key (`Product.query.get`). -/

def find_product (ps : List Product) (pid : Nat) : Option Product :=
  ps.find? (fun p => p.id == pid)

/-- The stock on hand recorded for product id `pid`, if the row exists. -/

def qtyOf (ps : List Product) (pid : Nat) : Option Int :=
  (find_product ps pid).map Product.quantity

/-- In-place mutation of one product row's `quantity` by `d`
(`product.quantity -= quantity` / `product.quantity += quantity`). -/

def add_stock (ps : List Product) (pid : Nat) (d : Int) : List Product :=
  ps.map (fun p => if p.id = pid then { p with quantity := p.quantity + d } else p)

/-- One requested line of a `create_bill` call: `{productId, quantity}`. -/

structure ReqItem where
  productId : Nat
  quantity : Int
deriving DecidableEq

/-- The request body of `create_bill`, restricted to the fields the billing
logic uses. -/

structure CreateReq where
  items : List ReqItem
  discount : ℚ
  discount_type : String
  tax : ℚ
  tax_type : String
  paid_amount : ℚ
  payment_method : String
deriving DecidableEq

/-- The error exits of `create_bill` (`app/routes/billing_routes.py`,
lines 138-179 plus the generic `except` handler). `paymentFailure` stands
for an exception raised after the first commit, while the `Payment` record
is being inserted (lines 215-224). -/

inductive CreateErr where
  | emptyBill
  | productNotFound (pid : Nat)
  | invalidQuantity (name : String)
  | insufficientStock (name : String) (available : Int)
  | paymentFailure
deriving DecidableEq

/-- The human-readable message each error exit returns. -/

def create_error_message : CreateErr → String
  | .emptyBill => "No items in bill"
  | .productNotFound pid => "Product with ID " ++ toString pid ++ " not found"
  | .invalidQuantity name => "Invalid quantity for " ++ name
  | .insufficientStock name available =>
      "Insufficient stock for " ++ name ++ ". Available: " ++ toString available
  | .paymentFailure => "payment insert failed"

/-- The per-line loop of `create_bill` (`billing_routes.py`, lines
164-205): look the product up, validate the quantity, validate the stock,
snapshot a pending `BillItem`, and decrement the product's stock. -/

def process_items : List ReqItem → List Product → List BillItem →
    Except CreateErr (List Product × List BillItem)
  | [], ps, acc => Except.ok (ps, acc)
  | r :: rest, ps, acc =>
    match find_product ps r.productId with
    | none => Except.error (CreateErr.productNotFound r.productId)
    | some p =>
      if r.quantity ≤ 0 then Except.error (CreateErr.invalidQuantity p.name)
      else if p.quantity < r.quantity then
        Except.error (CreateErr.insufficientStock p.name p.quantity)
      else
        process_items rest (add_stock ps r.productId (-r.quantity))
          (acc ++ [{ id := 0, bill_id := 0, product_id := p.id,
                     product_name := p.name, sell_price := p.sell_price,
                     quantity := r.quantity,
                     total := p.sell_price * (r.quantity : ℚ),
                     item_status := "pending" }])

/-- The total quantity the request asks for across all lines naming
product `pid`. -/

def requested_total (reqs : List ReqItem) (pid : Nat) : Int :=
  ((reqs.filter (fun r => r.productId == pid)).map ReqItem.quantity).sum

/-- The bill `create_bill` builds before its first commit
(`billing_routes.py`, lines 145-208): the request's settings, the
processed items attached under the new primary key, and the totals run
once. -/

def new_bill (new_id : Nat) (req : CreateReq) (items : List BillItem) : Bill :=
  calculate_totals
    { id := new_id, subtotal := 0, discount := req.discount,
      discount_type := req.discount_type, tax := req.tax,
      tax_type := req.tax_type, total := 0,
      paid_amount := req.paid_amount, change_amount := 0,
      payment_method := req.payment_method, payment_status := "pending",
      items := items.map (fun it => { it with bill_id := new_id }) }

/-- The payment row `create_bill` inserts after its first commit
(`billing_routes.py`, lines 216-222). -/

def new_payment (req : CreateReq) (bill : Bill) : Payment :=
  { bill_id := bill.id, payment_id := "PAY-" ++ toString bill.id,
    amount := bill.paid_amount, method := req.payment_method,
    status := if bill.paid_amount ≥ bill.total then "completed" else "partial" }

/-- Embedding of the `create_bill` route (`billing_routes.py`, lines
131-240). The route runs two commits: the bill with its items and the
stock decrements are committed first (line 212), and a `Payment` row is
inserted and committed afterwards when `paid_amount > 0` (lines 215-224).
An error before the first commit rolls the uncommitted session back,
leaving the state unchanged; `fail_payment` injects an exception into the
payment insert, whose `rollback` can undo only the second, not yet
committed, transaction. `new_id` is the primary key the database assigns
to the bill. -/

def create_bill (fail_payment : Bool) (new_id : Nat) (db : DB) (req : CreateReq) :
    DB × Except CreateErr Unit :=
  if req.items.isEmpty then (db, Except.error CreateErr.emptyBill)
  else
    match process_items req.items db.products [] with
    | Except.error e => (db, Except.error e)
    | Except.ok (ps, items) =>
      let bill := new_bill new_id req items
      let db1 : DB := { db with products := ps, bills := db.bills ++ [bill] }
      if bill.paid_amount > 0 then
        if fail_payment then (db1, Except.error CreateErr.paymentFailure)
        else ({ db1 with payments := db1.payments ++ [new_payment req bill] }, Except.ok ())
      else (db1, Except.ok ())

/-- Inventory with one product: id 1, 10 in stock at price 50. -/

def sample_db : DB :=
  { products := [{ id := 1, name := "Mouse", sell_price := 50, quantity := 10 }],
    bills := [], payments := [] }

/-- A request for 2 units of product 1, paying 100 in cash. -/

def sample_req : CreateReq :=
  { items := [{ productId := 1, quantity := 2 }], discount := 0,
    discount_type := "amount", tax := 0, tax_type := "amount",
    paid_amount := 100, payment_method := "cash" }

/-- A concrete bill exercising the C4 edge case: one line of 100, a flat
discount of 150, no tax, nothing paid.  Its computed total is `-50`. -/

def negative_total_bill : Bill :=
  { id := 1
    subtotal := 0
    discount := 150
    discount_type := "amount"
    tax := 0
    tax_type := "amount"
    total := 0
    paid_amount := 0
    change_amount := 0
    payment_method := "cash"
    payment_status := "pending"
    items := [{ id := 1, bill_id := 1, product_id := 1, product_name := "Mouse",
                sell_price := 100, quantity := 1, total := 100, item_status := "pending" }] }

/-- A concrete bill matching the spec's worked example: subtotal 400,
10 percent discount, 5 percent tax, 400 paid; its total computes to 378. -/

def example_bill : Bill :=
  { id := 2
    subtotal := 0
    discount := 10
    discount_type := "percentage"
    tax := 5
    tax_type := "percentage"
    total := 0
    paid_amount := 400
    change_amount := 0
    payment_method := "cash"
    payment_status := "pending"
    items := [{ id := 1, bill_id := 2, product_id := 1, product_name := "Mouse",
                sell_price := 100, quantity := 4, total := 400, item_status := "pending" }] }

/-- Lookup of a bill row by primary key (`Bill.query.get_or_404`). -/

def find_bill (bs : List Bill) (bid : Nat) : Option Bill :=
  bs.find? (fun b => b.id == bid)

/-- Lookup of a bill item row by primary key across all bills
(`BillItem.query.get_or_404`). -/

def find_item (bs : List Bill) (iid : Nat) : Option BillItem :=
  ((bs.map Bill.items).flatten).find? (fun it => it.id == iid)

/-- The error exits of the item-status and cancellation routes. -/

inductive BillingErr where
  | billNotFound
  | itemNotFound
  | itemNotOfBill
  | itemAlreadyCompleted
  | integrityError
deriving DecidableEq

/-- The message each error exit returns (`billing_routes.py`, lines
327-331, 691-692). -/

def billing_error_message : BillingErr → String
  | .billNotFound => "Bill not found"
  | .itemNotFound => "Item not found"
  | .itemNotOfBill => "Item does not belong to this bill"
  | .itemAlreadyCompleted => "Item is already completed"
  | .integrityError => "(pymysql.err.IntegrityError) Column 'bill_id' cannot be null"

/-- The restock loop of `cancel_bill` (`billing_routes.py`, lines
576-580): every item whose status is not `'completed'` puts its quantity
back on its product. -/

def restock_noncompleted (ps : List Product) (items : List BillItem) : List Product :=
  items.foldl
    (fun acc it =>
      if it.item_status ≠ "completed" then add_stock acc it.product_id it.quantity
      else acc)
    ps

/-- Total quantity `cancel_bill` gives back to product `pid`: the summed
quantities of the bill's non-completed items naming that product. -/

def restock_total (items : List BillItem) (pid : Nat) : Int :=
  ((items.filter
      (fun it => it.product_id == pid && it.item_status != "completed")).map
    BillItem.quantity).sum

/-- The payment-status sweep of `cancel_bill` (`billing_routes.py`, lines
583-584): every payment of the bill is flipped to `'refunded'`. -/

def refund_payments (pays : List Payment) (bid : Nat) : List Payment :=
  pays.map (fun pay => if pay.bill_id = bid then { pay with status := "refunded" } else pay)

/-- Embedding of the `cancel_bill` route (`billing_routes.py`, lines
569-599): restore stock for non-completed items, mark the bill's payments
refunded, then hard-delete the bill, whose items go with it
(`cascade='all, delete-orphan'` on `Bill.items`).

The `Payment` side is where the route breaks: `Payment.bill_id` is a NOT
NULL foreign key (`billing.py`, line 152) and the `payments` relationship
(`billing.py`, line 162, `backref='payments'`) declares no delete
cascade.  When the session flushes the bill delete, SQLAlchemy's
default behaviour for a one-to-many without delete cascade is to null
the children's foreign key, so for any bill that has payment rows the
flush emits `UPDATE payments SET bill_id=NULL ...`, MySQL rejects it
(NOT NULL column), the `except` handler rolls the whole transaction back
— restock, refund marks and delete included — and the route returns a
400.  The commit succeeds only when the bill has no payments. -/

def cancel_bill (db : DB) (bid : Nat) : DB × Except BillingErr Unit :=
  match find_bill db.bills bid with
  | none => (db, Except.error BillingErr.billNotFound)
  | some bill =>
    if db.payments.any (fun pay => pay.bill_id == bill.id) then
      (db, Except.error BillingErr.integrityError)
    else
      ({ products := restock_noncompleted db.products bill.items
         bills := db.bills.filter (fun b => b.id != bill.id)
         payments := refund_payments db.payments bill.id },
       Except.ok ())

/-- Embedding of the `void_bill_item` route (`billing_routes.py`, lines
684-712): after the ownership check, stock is restored only when the item
is not completed, the item row is deleted, and the bill's totals are
recomputed over the remaining items (the session autoflushes the pending
delete before `calculate_totals` loads `bill.items`). -/

def void_bill_item (db : DB) (bid iid : Nat) : DB × Except BillingErr Unit :=
  match find_bill db.bills bid with
  | none => (db, Except.error BillingErr.billNotFound)
  | some bill =>
    match find_item db.bills iid with
    | none => (db, Except.error BillingErr.itemNotFound)
    | some item =>
      if item.bill_id ≠ bill.id then (db, Except.error BillingErr.itemNotOfBill)
      else
        let ps :=
          if item.item_status ≠ "completed"
          then add_stock db.products item.product_id item.quantity
          else db.products
        let bill1 :=
          calculate_totals { bill with items := bill.items.filter (fun it => it.id != item.id) }
        ({ products := ps
           bills := db.bills.map (fun b => if b.id = bill.id then bill1 else b)
           payments := db.payments },
         Except.ok ())

/-- Embedding of the `complete_bill_item` route (`billing_routes.py`,
lines 320-350): ownership check, pending check, then the single status
flip; no product stock is touched. -/

def complete_bill_item (db : DB) (bid iid : Nat) : DB × Except BillingErr Unit :=
  match find_bill db.bills bid with
  | none => (db, Except.error BillingErr.billNotFound)
  | some bill =>
    match find_item db.bills iid with
    | none => (db, Except.error BillingErr.itemNotFound)
    | some item =>
      if item.bill_id ≠ bill.id then (db, Except.error BillingErr.itemNotOfBill)
      else if item.item_status ≠ "pending" then
        (db, Except.error BillingErr.itemAlreadyCompleted)
      else
        ({ products := db.products
           bills := db.bills.map (fun b =>
             if b.id = bill.id then
               { b with items := b.items.map (fun it =>
                   if it.id = item.id then { it with item_status := "completed" } else it) }
             else b)
           payments := db.payments },
         Except.ok ())

/-- The bill-number format of `generate_unique_bill_number`
(`billing_routes.py`, line 55): date prefix plus random suffix. -/

def mk_bill_number (date_str suffix : String) : String :=
  "BT-" ++ date_str ++ "-" ++ suffix

/-- Embedding of `generate_unique_bill_number` (`billing_routes.py`,
lines 40-60). The source is `while True:` with no retry cap and no error
exit; `fuel` is an observation bound on that unbounded loop and `none`
means the loop has not returned within `fuel` iterations. `rand i` is the
random suffix drawn on iteration `i`, `existing` the collision check
against stored bill numbers. -/

def generate_unique_bill_number (date_str : String) (rand : Nat → String)
    (existing : String → Bool) : Nat → Nat → Option String
  | 0, _ => none
  | fuel+1, i =>
    let bn := mk_bill_number date_str (rand i)
    if existing bn then generate_unique_bill_number date_str rand existing fuel (i+1)
    else some bn

/-- A bill with a pending item of quantity 3 and a completed item of
quantity 2, both on product 1 — the spec's own cancellation example. -/

def cancel_ex_bill : Bill :=
  { id := 1
    subtotal := 500
    discount := 0
    discount_type := "amount"
    tax := 0
    tax_type := "amount"
    total := 500
    paid_amount := 500
    change_amount := 0
    payment_method := "cash"
    payment_status := "paid"
    items :=
      [{ id := 11, bill_id := 1, product_id := 1, product_name := "Keyboard",
         sell_price := 100, quantity := 3, total := 300, item_status := "pending" },
       { id := 12, bill_id := 1, product_id := 1, product_name := "Keyboard",
         sell_price := 100, quantity := 2, total := 200, item_status := "completed" }] }

/-- Store holding `cancel_ex_bill`, product 1 at stock 5, and one
payment. -/

def cancel_ex_db : DB :=
  { products := [{ id := 1, name := "Keyboard", sell_price := 100, quantity := 5 }]
    bills := [cancel_ex_bill]
    payments := [{ bill_id := 1, payment_id := "PAY-1", amount := 500,
                   method := "cash", status := "completed" }] }

/-- Store for the item-status examples: product 1 at stock 5, one bill
with a pending item 11 (qty 2) and a completed item 12 (qty 1). -/

def item_ex_bill : Bill :=
  { id := 1
    subtotal := 300
    discount := 0
    discount_type := "amount"
    tax := 0
    tax_type := "amount"
    total := 300
    paid_amount := 0
    change_amount := 0
    payment_method := "cash"
    payment_status := "pending"
    items :=
      [{ id := 11, bill_id := 1, product_id := 1, product_name := "Keyboard",
         sell_price := 100, quantity := 2, total := 200, item_status := "pending" },
       { id := 12, bill_id := 1, product_id := 1, product_name := "Keyboard",
         sell_price := 100, quantity := 1, total := 100, item_status := "completed" }] }

/-- Store holding `item_ex_bill` and product 1 at stock 5. -/

def item_ex_db : DB :=
  { products := [{ id := 1, name := "Keyboard", sell_price := 100, quantity := 5 }]
    bills := [item_ex_bill]
    payments := [] }

/-- A second bill (id 2) owning item 21, used to exercise the
cross-bill ownership check. -/

def other_bill : Bill :=
  { id := 2
    subtotal := 100
    discount := 0
    discount_type := "amount"
    tax := 0
    tax_type := "amount"
    total := 100
    paid_amount := 0
    change_amount := 0
    payment_method := "cash"
    payment_status := "pending"
    items :=
      [{ id := 21, bill_id := 2, product_id := 1, product_name := "Keyboard",
         sell_price := 100, quantity := 1, total := 100, item_status := "pending" }] }

/-- Store with two bills, to call item routes across bills. -/

def two_bill_db : DB :=
  { products := [{ id := 1, name := "Keyboard", sell_price := 100, quantity := 5 }]
    bills := [item_ex_bill, other_bill]
    payments := [] }

/-- Field view of `calculate_totals`: the subtotal written back. -/

theorem calculate_totals_subtotal (b : Bill) :
    (calculate_totals b).subtotal = (b.items.map BillItem.total).sum := rfl

/-- Field view of `calculate_totals`: the grand total written back. -/

theorem calculate_totals_total (b : Bill) :
    (calculate_totals b).total =
      (b.items.map BillItem.total).sum
        - (if b.discount_type = "percentage"
            then (b.items.map BillItem.total).sum * b.discount / 100 else b.discount)
        + (if b.tax_type = "percentage"
            then ((b.items.map BillItem.total).sum
                - (if b.discount_type = "percentage"
                    then (b.items.map BillItem.total).sum * b.discount / 100 else b.discount))
              * b.tax / 100
            else b.tax) := rfl

/-- Field view of `calculate_totals`: the change written back. -/

theorem calculate_totals_change (b : Bill) :
    (calculate_totals b).change_amount
      = max 0 (b.paid_amount - (calculate_totals b).total) := rfl

/-- Field view of `calculate_totals`: the derived payment status. -/

theorem calculate_totals_status (b : Bill) :
    (calculate_totals b).payment_status =
      (if b.paid_amount ≥ (calculate_totals b).total then "paid"
       else if b.paid_amount > 0 then "partial"
       else "pending") := rfl

/-- Fields `calculate_totals` does not touch. -/

theorem calculate_totals_untouched (b : Bill) :
    (calculate_totals b).id = b.id ∧
    (calculate_totals b).items = b.items ∧
    (calculate_totals b).paid_amount = b.paid_amount ∧
    (calculate_totals b).discount = b.discount ∧
    (calculate_totals b).discount_type = b.discount_type ∧
    (calculate_totals b).tax = b.tax ∧
    (calculate_totals b).tax_type = b.tax_type := ⟨rfl, rfl, rfl, rfl, rfl, rfl, rfl⟩

/-- C1: for every bill, `calculate_totals` computes the subtotal as the
sum of the items' line totals, the discount amount as `subtotal × discount
/ 100` for percentage discounts and as the flat discount otherwise, the
tax amount on the post-discount base (percentage) or as the flat tax, and
`total = subtotal − discountAmount + taxAmount` with no clamping of a
negative total. -/

theorem calculate_totals_formula (b : Bill) :
    (calculate_totals b).subtotal = (b.items.map BillItem.total).sum ∧
    (calculate_totals b).total =
      (b.items.map BillItem.total).sum
        - spec_discount_amount ((b.items.map BillItem.total).sum) b.discount b.discount_type
        + spec_tax_amount ((b.items.map BillItem.total).sum)
            (spec_discount_amount ((b.items.map BillItem.total).sum) b.discount b.discount_type)
            b.tax b.tax_type := by
  constructor <;> rfl

/-- Pointwise effect of `add_stock` on recorded stock: the targeted id
moves by `d`, every other id is untouched. -/

theorem qtyOf_add_stock (ps : List Product) (pid : Nat) (d : Int) (pid' : Nat) :
    qtyOf (add_stock ps pid d) pid' =
      (qtyOf ps pid').map (fun q => if pid' = pid then q + d else q) := by
  induction ps with
  | nil => rfl
  | cons p ps ih =>
    by_cases h2 : p.id = pid <;> by_cases h1 : p.id = pid' <;>
      simp_all [qtyOf, find_product, add_stock, List.find?_cons]

/-- Splitting `requested_total` at the head request. -/

theorem requested_total_cons (r : ReqItem) (rest : List ReqItem) (pid : Nat) :
    requested_total (r :: rest) pid =
      (if r.productId = pid then r.quantity else 0) + requested_total rest pid := by
  by_cases h : r.productId = pid <;>
    simp [requested_total, List.filter_cons, h]

/-- A product no request line names has zero requested total. -/

theorem requested_total_of_not_any (reqs : List ReqItem) (pid : Nat)
    (h : reqs.any (fun r => r.productId == pid) = false) :
    requested_total reqs pid = 0 := by
  induction reqs with
  | nil => rfl
  | cons r rest ih =>
    simp only [List.any_cons, Bool.or_eq_false_iff] at h
    rw [requested_total_cons, if_neg (by simpa using h.1), ih h.2, add_zero]

/-- When the per-line loop succeeds, every product's recorded stock has
moved down by exactly the total quantity the request asked for under its
id (products the request never names are untouched). -/

theorem process_items_stock (reqs : List ReqItem) :
    ∀ (ps : List Product) (acc : List BillItem) (ps' : List Product) (out : List BillItem),
      process_items reqs ps acc = Except.ok (ps', out) →
      ∀ pid, qtyOf ps' pid = (qtyOf ps pid).map (fun q => q - requested_total reqs pid) := by
  induction reqs with
  | nil =>
    intro ps acc ps' out h pid
    simp only [process_items, Except.ok.injEq, Prod.mk.injEq] at h
    obtain ⟨h1, -⟩ := h
    subst h1
    cases qtyOf ps pid <;> simp [requested_total]
  | cons r rest ih =>
    intro ps acc ps' out h pid
    cases hfp : find_product ps r.productId with
    | none => simp [process_items, hfp] at h
    | some p =>
      simp only [process_items, hfp] at h
      by_cases hq : r.quantity ≤ 0
      · rw [if_pos hq] at h; exact absurd h (by simp)
      rw [if_neg hq] at h
      by_cases hlt : p.quantity < r.quantity
      · rw [if_pos hlt] at h; exact absurd h (by simp)
      rw [if_neg hlt] at h
      rw [ih _ _ _ _ h pid, qtyOf_add_stock, requested_total_cons]
      cases hqq : qtyOf ps pid with
      | none => simp
      | some x =>
        simp only [Option.map_some', Option.some.injEq]
        by_cases hp : pid = r.productId
        · rw [if_pos hp, if_pos hp.symm]
          omega
        · rw [if_neg hp, if_neg (fun hh : r.productId = pid => hp hh.symm)]
          omega

/-- When the per-line loop succeeds, every product the request names ends
with non-negative recorded stock: each line was accepted only after the
`product.quantity < quantity` check against the stock remaining at that
point. -/

theorem process_items_nonneg (reqs : List ReqItem) :
    ∀ (ps : List Product) (acc : List BillItem) (ps' : List Product) (out : List BillItem),
      process_items reqs ps acc = Except.ok (ps', out) →
      ∀ pid, reqs.any (fun r => r.productId == pid) = true →
      ∀ q, qtyOf ps' pid = some q → 0 ≤ q := by
  induction reqs with
  | nil => intro ps acc ps' out h pid hany; simp at hany
  | cons r rest ih =>
    intro ps acc ps' out h pid hany q hq
    cases hfp : find_product ps r.productId with
    | none => simp [process_items, hfp] at h
    | some p =>
      simp only [process_items, hfp] at h
      by_cases hq0 : r.quantity ≤ 0
      · rw [if_pos hq0] at h; exact absurd h (by simp)
      rw [if_neg hq0] at h
      by_cases hlt : p.quantity < r.quantity
      · rw [if_pos hlt] at h; exact absurd h (by simp)
      rw [if_neg hlt] at h
      by_cases hrest : rest.any (fun r => r.productId == pid) = true
      · exact ih _ _ _ _ h pid hrest q hq
      · have hmatch : r.productId = pid := by
          simp only [List.any_cons, Bool.or_eq_true] at hany
          rcases hany with h1 | h1
          · exact by simpa using h1
          · exact absurd h1 hrest
        have hzero : requested_total rest pid = 0 :=
          requested_total_of_not_any rest pid (Bool.not_eq_true _ ▸ hrest)
        have hstep : qtyOf (add_stock ps r.productId (-r.quantity)) pid
            = some (p.quantity + -r.quantity) := by
          rw [qtyOf_add_stock]
          have hps : qtyOf ps pid = some p.quantity := by
            unfold qtyOf
            rw [← hmatch, hfp]
            rfl
          rw [hps, Option.map_some', if_pos hmatch.symm]
        have hfin := process_items_stock rest _ _ _ _ h pid
        rw [hstep, Option.map_some', hzero] at hfin
        rw [hfin] at hq
        have hval : p.quantity + -r.quantity - 0 = q := by injection hq
        omega

/-- The item loop can only fail with a lookup, quantity or stock error:
`paymentFailure` never originates there. -/

theorem process_items_error_kinds (reqs : List ReqItem) :
    ∀ (ps : List Product) (acc : List BillItem) (e : CreateErr),
      process_items reqs ps acc = Except.error e → e ≠ CreateErr.paymentFailure := by
  induction reqs with
  | nil => intro ps acc e h; simp [process_items] at h
  | cons r rest ih =>
    intro ps acc e h
    cases hfp : find_product ps r.productId with
    | none =>
      simp only [process_items, hfp, Except.error.injEq] at h
      subst h
      simp
    | some p =>
      simp only [process_items, hfp] at h
      by_cases hq : r.quantity ≤ 0
      · rw [if_pos hq] at h
        obtain rfl : CreateErr.invalidQuantity p.name = e := by simpa using h
        simp
      rw [if_neg hq] at h
      by_cases hlt : p.quantity < r.quantity
      · rw [if_pos hlt] at h
        obtain rfl : CreateErr.insufficientStock p.name p.quantity = e := by simpa using h
        simp
      rw [if_neg hlt] at h
      exact ih _ _ _ h

/-- Unfolding of `create_bill` past a successful item loop: the first
commit installs the decremented stock and the new bill, then the payment
step decides the final state. -/

theorem create_bill_ok_eq (fp : Bool) (nid : Nat) (db : DB) (req : CreateReq)
    (ps : List Product) (out : List BillItem)
    (he : ¬ req.items.isEmpty = true)
    (hpi : process_items req.items db.products [] = Except.ok (ps, out)) :
    create_bill fp nid db req =
      (if (new_bill nid req out).paid_amount > 0 then
        (if fp then
          ({ db with
              products := ps
              bills := db.bills ++ [new_bill nid req out] },
           Except.error CreateErr.paymentFailure)
         else
          ({ db with
              products := ps
              bills := db.bills ++ [new_bill nid req out]
              payments := db.payments ++ [new_payment req (new_bill nid req out)] },
           Except.ok ()))
       else
        ({ db with
            products := ps
            bills := db.bills ++ [new_bill nid req out] },
         Except.ok ())) := by
  unfold create_bill
  rw [if_neg he, hpi]

/-- C2: during the item loop of `create_bill`, a line whose product has
less stock than requested fails with `insufficientStock`, whose message
contains the product name and the available quantity; and whenever
`create_bill` succeeds, every product's stock has been decremented by
exactly the summed requested quantity under its id and no product named
by the request ends with negative stock. -/

theorem create_bill_stock_safety (fp : Bool) (nid : Nat) (db : DB) (req : CreateReq) :
    (∀ (r : ReqItem) (rest : List ReqItem) (ps : List Product) (acc : List BillItem)
        (p : Product),
        find_product ps r.productId = some p →
        0 < r.quantity →
        p.quantity < r.quantity →
        process_items (r :: rest) ps acc
            = Except.error (CreateErr.insufficientStock p.name p.quantity) ∧
        ∃ s1 s2 s3, create_error_message (CreateErr.insufficientStock p.name p.quantity)
            = s1 ++ p.name ++ s2 ++ toString p.quantity ++ s3) ∧
    (∀ u, (create_bill fp nid db req).2 = Except.ok u →
        (∀ pid, qtyOf (create_bill fp nid db req).1.products pid
            = (qtyOf db.products pid).map (fun q => q - requested_total req.items pid)) ∧
        (∀ pid, req.items.any (fun r => r.productId == pid) = true →
            ∀ q, qtyOf (create_bill fp nid db req).1.products pid = some q → 0 ≤ q)) := by
  constructor
  · intro r rest ps acc p hfp hpos hlt
    constructor
    · simp only [process_items, hfp]
      rw [if_neg (by omega), if_pos hlt]
    · exact ⟨"Insufficient stock for ", ". Available: ", "", by
        simp [create_error_message]⟩
  · intro u h
    by_cases he : req.items.isEmpty
    · unfold create_bill at h
      rw [if_pos he] at h
      simp at h
    · cases hpi : process_items req.items db.products [] with
      | error e =>
        unfold create_bill at h
        rw [if_neg he, hpi] at h
        simp at h
      | ok pr =>
        obtain ⟨ps, out⟩ := pr
        have hprod : (create_bill fp nid db req).1.products = ps := by
          rw [create_bill_ok_eq fp nid db req ps out he hpi]
          split_ifs <;> rfl
        rw [hprod]
        exact ⟨fun pid => process_items_stock _ _ _ _ _ hpi pid,
               fun pid hany q hqq => process_items_nonneg _ _ _ _ _ hpi pid hany q hqq⟩

/-- C2 witness: on `sample_db`, requesting 2 of product 1 succeeds and
leaves stock 8, which is the claimed decrement and non-negative. -/

theorem create_bill_stock_safety_witness :
    qtyOf (create_bill false 7 sample_db sample_req).1.products 1 = some 8 ∧
    (0 : Int) ≤ 8 := by
  have h := (create_bill_stock_safety false 7 sample_db sample_req).2 () rfl
  have hq : qtyOf (create_bill false 7 sample_db sample_req).1.products 1 = some 8 := by
    decide
  exact ⟨hq, h.2 1 (by decide) 8 hq⟩

/-- C3 (amended): an error raised before the first commit of
`create_bill` (empty item list, product not found, invalid quantity,
insufficient stock) leaves the whole store exactly as before the call;
but the bill is committed before the payment record is inserted, so a
failure while recording the payment rolls back only the payment: the
bill, its items and the stock decrements remain persisted and no payment
row is added. -/

theorem create_bill_rollback (fp : Bool) (nid : Nat) (db : DB) (req : CreateReq)
    (e : CreateErr) (h : (create_bill fp nid db req).2 = Except.error e) :
    (e ≠ CreateErr.paymentFailure → (create_bill fp nid db req).1 = db) ∧
    (e = CreateErr.paymentFailure →
      (create_bill fp nid db req).1.payments = db.payments ∧
      (∃ nb, (create_bill fp nid db req).1.bills = db.bills ++ [nb]) ∧
      (∃ ps out, process_items req.items db.products [] = Except.ok (ps, out) ∧
        (create_bill fp nid db req).1.products = ps)) := by
  by_cases he : req.items.isEmpty
  · have hcb : create_bill fp nid db req = (db, Except.error CreateErr.emptyBill) := by
      unfold create_bill
      rw [if_pos he]
    rw [hcb] at h
    have hee : e = CreateErr.emptyBill := by
      simpa using h.symm
    subst hee
    exact ⟨fun _ => by rw [hcb], fun hpe => absurd hpe (by decide)⟩
  · cases hpi : process_items req.items db.products [] with
    | error e' =>
      have hcb : create_bill fp nid db req = (db, Except.error e') := by
        unfold create_bill
        rw [if_neg he, hpi]
      rw [hcb] at h
      have hee : e = e' := by simpa using h.symm
      subst hee
      refine ⟨fun _ => by rw [hcb], fun hpe => ?_⟩
      exact absurd hpe (process_items_error_kinds req.items db.products [] _ hpi)
    | ok pr =>
      obtain ⟨ps, out⟩ := pr
      have hcb := create_bill_ok_eq fp nid db req ps out he hpi
      by_cases hp : (new_bill nid req out).paid_amount > 0
      · rw [if_pos hp] at hcb
        cases fp with
        | false =>
          rw [if_neg (by decide)] at hcb
          rw [hcb] at h
          simp at h
        | true =>
          rw [if_pos rfl] at hcb
          rw [hcb] at h
          have hee : e = CreateErr.paymentFailure := by simpa using h.symm
          subst hee
          refine ⟨fun hne => absurd rfl hne, fun _ => ?_⟩
          rw [hcb]
          exact ⟨rfl, ⟨new_bill nid req out, rfl⟩, ps, out, rfl, rfl⟩
      · rw [if_neg hp] at hcb
        rw [hcb] at h
        simp at h

/-- C3 counterexample: on `sample_db` (stock 10) with `sample_req`
(2 units, 100 paid), a failure while inserting the payment record leaves
an error, yet the bill is persisted and the stock decrement (10 → 8)
survives: the stores are not left as before the call. -/

theorem create_bill_rollback_counterexample :
    (create_bill true 7 sample_db sample_req).2
        = Except.error CreateErr.paymentFailure ∧
    (create_bill true 7 sample_db sample_req).1 ≠ sample_db ∧
    (create_bill true 7 sample_db sample_req).1.bills.length = 1 ∧
    qtyOf (create_bill true 7 sample_db sample_req).1.products 1 = some 8 := by
  refine ⟨rfl, ?_, rfl, by decide⟩
  intro hcon
  have h1 : (create_bill true 7 sample_db sample_req).1.bills.length = 1 := rfl
  rw [hcon] at h1
  exact absurd h1 (by decide)

/-- C3 witness: a call rejected before the first commit (empty item list)
leaves the store untouched. -/

theorem create_bill_rollback_witness :
    (create_bill false 7 sample_db { sample_req with items := [] }).1 = sample_db := by
  have h := create_bill_rollback false 7 sample_db { sample_req with items := [] }
    CreateErr.emptyBill rfl
  exact h.1 (by decide)

/-- C4 counterexample: the claim says `paymentStatus = "pending"` whenever
`paidAmount = 0`, but on a bill whose computed total is negative (`-50`
here) the source's first branch `paid_amount >= total` fires and the
status is `"paid"` even though `paid_amount = 0`. -/

theorem paid_status_zero_paid_counterexample :
    ¬ ((calculate_totals negative_total_bill).paid_amount = 0 →
        (calculate_totals negative_total_bill).payment_status = "pending") := by
  intro h
  have hp : (calculate_totals negative_total_bill).paid_amount = 0 := rfl
  have htot : (calculate_totals negative_total_bill).total = -50 := by
    rw [calculate_totals_total]
    norm_num [negative_total_bill]
  have hs : (calculate_totals negative_total_bill).payment_status = "paid" := by
    rw [calculate_totals_status, htot]
    norm_num [negative_total_bill]
  rw [h hp] at hs
  exact absurd hs (by decide)

/-- C4 (amended): `changeAmount = max 0 (paidAmount − total)`;
`paymentStatus` is `"paid"` when `paidAmount ≥ total`, `"partial"` when
`0 < paidAmount < total`, and `"pending"` when `paidAmount = 0` and the
total is positive (when `total ≤ 0`, `paidAmount = 0` already falls in
the `"paid"` branch). -/

theorem paid_status_rules (b : Bill) :
    (calculate_totals b).change_amount
        = max 0 (b.paid_amount - (calculate_totals b).total) ∧
    (b.paid_amount ≥ (calculate_totals b).total →
        (calculate_totals b).payment_status = "paid") ∧
    (0 < b.paid_amount ∧ b.paid_amount < (calculate_totals b).total →
        (calculate_totals b).payment_status = "partial") ∧
    (b.paid_amount = 0 ∧ 0 < (calculate_totals b).total →
        (calculate_totals b).payment_status = "pending") := by
  refine ⟨calculate_totals_change b, ?_, ?_, ?_⟩
  · intro h
    rw [calculate_totals_status, if_pos h]
  · rintro ⟨h1, h2⟩
    rw [calculate_totals_status, if_neg (not_le.mpr h2), if_pos h1]
  · rintro ⟨h1, h2⟩
    rw [calculate_totals_status, if_neg (by rw [h1]; exact not_le.mpr h2),
      if_neg (by rw [h1]; exact lt_irrefl 0)]

/-- C4 witness: the spec's own example, `paidAmount = 400` on a bill whose
total computes to `378`, yields status `"paid"`. -/

theorem paid_status_rules_witness :
    (calculate_totals example_bill).payment_status = "paid" := by
  have htot : (calculate_totals example_bill).total = 378 := by
    rw [calculate_totals_total]
    norm_num [example_bill]
  exact (paid_status_rules example_bill).2.1 (by rw [htot]; norm_num [example_bill])

/-- Splitting `restock_total` at the head item. -/

theorem restock_total_cons (it : BillItem) (rest : List BillItem) (pid : Nat) :
    restock_total (it :: rest) pid =
      (if it.product_id = pid ∧ it.item_status ≠ "completed" then it.quantity else 0)
        + restock_total rest pid := by
  by_cases h1 : it.product_id = pid <;> by_cases h2 : it.item_status = "completed" <;>
    simp [restock_total, List.filter_cons, h1, h2]

/-- Pointwise effect of the cancellation restock loop on recorded stock:
each product gains exactly the summed quantities of the bill's
non-completed items that name it. -/

theorem qtyOf_restock_noncompleted (items : List BillItem) :
    ∀ (ps : List Product) (pid : Nat),
      qtyOf (restock_noncompleted ps items) pid
        = (qtyOf ps pid).map (fun q => q + restock_total items pid) := by
  induction items with
  | nil =>
    intro ps pid
    show qtyOf ps pid = (qtyOf ps pid).map (fun q => q + restock_total [] pid)
    cases qtyOf ps pid <;> simp [restock_total]
  | cons it rest ih =>
    intro ps pid
    have hunf : restock_noncompleted ps (it :: rest)
        = restock_noncompleted
            (if it.item_status ≠ "completed"
             then add_stock ps it.product_id it.quantity else ps) rest := rfl
    rw [hunf, ih, restock_total_cons]
    by_cases h2 : it.item_status = "completed"
    · rw [if_neg (by simp [h2]), if_neg (by simp [h2])]
      cases qtyOf ps pid <;> simp
    · rw [if_pos (by simp [h2]), qtyOf_add_stock]
      by_cases h1 : it.product_id = pid
      · rw [if_pos ⟨h1, h2⟩]
        cases qtyOf ps pid with
        | none => simp
        | some x =>
          simp only [Option.map_some', Option.some.injEq, if_pos h1.symm]
          omega
      · rw [if_neg (by simp [h1])]
        cases qtyOf ps pid with
        | none => simp
        | some x =>
          simp only [Option.map_some', Option.some.injEq,
            if_neg (fun hh : pid = it.product_id => h1 hh.symm)]
          omega

/-- Bill lookup commutes with an id-preserving per-row update. -/

theorem find_bill_map_id (bs : List Bill) (bid : Nat) (f : Bill → Bill)
    (hf : ∀ b, (f b).id = b.id) :
    find_bill (bs.map f) bid = (find_bill bs bid).map f := by
  induction bs with
  | nil => rfl
  | cons b rest ih =>
    simp only [find_bill, List.map_cons] at *
    by_cases h : b.id = bid
    · rw [List.find?_cons_of_pos _ (by simp [hf, h]),
        List.find?_cons_of_pos _ (by simp [h])]
      rfl
    · rw [List.find?_cons_of_neg _ (by simp [hf, h]),
        List.find?_cons_of_neg _ (by simp [h])]
      exact ih

/-- After filtering a bill id out, lookup of that id fails. -/

theorem find_bill_filter_self (bs : List Bill) (bid : Nat) :
    find_bill (bs.filter (fun b => b.id != bid)) bid = none := by
  rw [find_bill, List.find?_eq_none]
  intro b hb
  have hmem := List.of_mem_filter hb
  simpa using hmem

/-- A successful bill lookup returns a row whose id is the key. -/

theorem find_bill_id (bs : List Bill) (bid : Nat) (bill : Bill)
    (h : find_bill bs bid = some bill) : bill.id = bid := by
  have hp := List.find?_some h
  simpa using hp

/-- Unfolding of `cancel_bill` on a bill that exists: with payment rows
referencing the bill the commit fails and nothing changes; without them
the restock, refund sweep (vacuous) and delete go through. -/

theorem cancel_bill_eq (db : DB) (bid : Nat) (bill : Bill)
    (hb : find_bill db.bills bid = some bill) :
    cancel_bill db bid =
      (if db.payments.any (fun pay => pay.bill_id == bill.id) then
        (db, Except.error BillingErr.integrityError)
       else
        ({ products := restock_noncompleted db.products bill.items
           bills := db.bills.filter (fun b => b.id != bill.id)
           payments := refund_payments db.payments bill.id },
         Except.ok ())) := by
  unfold cancel_bill
  split
  · rename_i heq
    rw [hb] at heq
    cases heq
  · rename_i b heq
    rw [hb] at heq
    injection heq with h1
    subst h1
    rfl

/-- Unfolding of `void_bill_item` past the ownership check. -/

theorem void_bill_item_owned_eq (db : DB) (bid iid : Nat) (bill : Bill) (item : BillItem)
    (hb : find_bill db.bills bid = some bill)
    (hi : find_item db.bills iid = some item)
    (hbel : item.bill_id = bill.id) :
    void_bill_item db bid iid =
      ({ products :=
           if item.item_status ≠ "completed"
           then add_stock db.products item.product_id item.quantity
           else db.products
         bills := db.bills.map (fun b =>
           if b.id = bill.id then
             calculate_totals
               { bill with items := bill.items.filter (fun it => it.id != item.id) }
           else b)
         payments := db.payments },
       Except.ok ()) := by
  unfold void_bill_item
  split
  · rename_i heq
    rw [hb] at heq
    cases heq
  · rename_i b heq
    rw [hb] at heq
    injection heq with h1
    subst h1
    split
    · rename_i heq2
      rw [hi] at heq2
      cases heq2
    · rename_i it heq2
      rw [hi] at heq2
      injection heq2 with h2
      subst h2
      rw [if_neg (not_not_intro hbel)]

/-- Unfolding of `void_bill_item` when the item belongs to another bill. -/

theorem void_bill_item_not_owned_eq (db : DB) (bid iid : Nat) (bill : Bill) (item : BillItem)
    (hb : find_bill db.bills bid = some bill)
    (hi : find_item db.bills iid = some item)
    (hne : item.bill_id ≠ bill.id) :
    void_bill_item db bid iid = (db, Except.error BillingErr.itemNotOfBill) := by
  unfold void_bill_item
  split
  · rename_i heq
    rw [hb] at heq
    cases heq
  · rename_i b heq
    rw [hb] at heq
    injection heq with h1
    subst h1
    split
    · rename_i heq2
      rw [hi] at heq2
      cases heq2
    · rename_i it heq2
      rw [hi] at heq2
      injection heq2 with h2
      subst h2
      rw [if_pos hne]

/-- Unfolding of `complete_bill_item` past the ownership check. -/

theorem complete_bill_item_owned_eq (db : DB) (bid iid : Nat) (bill : Bill) (item : BillItem)
    (hb : find_bill db.bills bid = some bill)
    (hi : find_item db.bills iid = some item)
    (hbel : item.bill_id = bill.id) :
    complete_bill_item db bid iid =
      (if item.item_status ≠ "pending"
       then (db, Except.error BillingErr.itemAlreadyCompleted)
       else
        ({ products := db.products
           bills := db.bills.map (fun b =>
             if b.id = bill.id then
               { b with items := b.items.map (fun it =>
                   if it.id = item.id then { it with item_status := "completed" } else it) }
             else b)
           payments := db.payments },
         Except.ok ())) := by
  unfold complete_bill_item
  split
  · rename_i heq
    rw [hb] at heq
    cases heq
  · rename_i b heq
    rw [hb] at heq
    injection heq with h1
    subst h1
    split
    · rename_i heq2
      rw [hi] at heq2
      cases heq2
    · rename_i it heq2
      rw [hi] at heq2
      injection heq2 with h2
      subst h2
      rw [if_neg (not_not_intro hbel)]

/-- Unfolding of `complete_bill_item` when the item belongs to another
bill. -/

theorem complete_bill_item_not_owned_eq (db : DB) (bid iid : Nat) (bill : Bill)
    (item : BillItem)
    (hb : find_bill db.bills bid = some bill)
    (hi : find_item db.bills iid = some item)
    (hne : item.bill_id ≠ bill.id) :
    complete_bill_item db bid iid = (db, Except.error BillingErr.itemNotOfBill) := by
  unfold complete_bill_item
  split
  · rename_i heq
    rw [hb] at heq
    cases heq
  · rename_i b heq
    rw [hb] at heq
    injection heq with h1
    subst h1
    split
    · rename_i heq2
      rw [hi] at heq2
      cases heq2
    · rename_i it heq2
      rw [hi] at heq2
      injection heq2 with h2
      subst h2
      rw [if_pos hne]

/-- C5: evaluating the code at the claim's own scenario.  On
`cancel_ex_db` — the spec's cancellation example, a bill with a pending
item of quantity 3 and a completed item of quantity 2 plus one payment
row — the flush of the bill delete violates the NOT NULL foreign key
`payments.bill_id` (no delete cascade on the `payments` relationship),
so the route errors and rolls back: stock stays at 5, the payment keeps
status `'completed'`, and the bill survives.  The claimed
restock-refund-delete outcome commits only for a bill with no payments:
on the same store stripped of its payment row, cancellation restores
exactly 3 units (5 → 8) and deletes the bill. -/

theorem cancel_bill_integrity_failure :
    cancel_bill cancel_ex_db 1 = (cancel_ex_db, Except.error BillingErr.integrityError) ∧
    qtyOf (cancel_bill { cancel_ex_db with payments := [] } 1).1.products 1 = some 8 ∧
    find_bill (cancel_bill { cancel_ex_db with payments := [] } 1).1.bills 1 = none := by
  refine ⟨rfl, ?_, ?_⟩ <;> decide

/-- C6: voiding a pending item of the bill succeeds, restores the item's
quantity to its product (all other products untouched), leaves payments
alone, and stores the bill back with the item removed and `subtotal` and
`total` recomputed over the remaining items only. -/

theorem void_pending_item_spec (db : DB) (bid iid : Nat) (bill : Bill) (item : BillItem)
    (hb : find_bill db.bills bid = some bill)
    (hi : find_item db.bills iid = some item)
    (hbel : item.bill_id = bill.id)
    (hst : item.item_status = "pending") :
    (void_bill_item db bid iid).2 = Except.ok () ∧
    (∀ pid, qtyOf (void_bill_item db bid iid).1.products pid
        = (qtyOf db.products pid).map
            (fun q => if pid = item.product_id then q + item.quantity else q)) ∧
    (∃ b', find_bill (void_bill_item db bid iid).1.bills bid = some b' ∧
        b'.items = bill.items.filter (fun it => it.id != item.id) ∧
        b'.subtotal
          = ((bill.items.filter (fun it => it.id != item.id)).map BillItem.total).sum ∧
        b'.total = b'.subtotal
            - spec_discount_amount b'.subtotal bill.discount bill.discount_type
            + spec_tax_amount b'.subtotal
                (spec_discount_amount b'.subtotal bill.discount bill.discount_type)
                bill.tax bill.tax_type) ∧
    (void_bill_item db bid iid).1.payments = db.payments := by
  rw [void_bill_item_owned_eq db bid iid bill item hb hi hbel]
  rw [if_pos (by rw [hst]; decide)]
  refine ⟨rfl, ?_, ?_, rfl⟩
  · intro pid
    exact qtyOf_add_stock db.products item.product_id item.quantity pid
  · refine ⟨calculate_totals
      { bill with items := bill.items.filter (fun it => it.id != item.id) }, ?_, rfl, rfl, ?_⟩
    · have hmap := find_bill_map_id db.bills bid
        (fun b => if b.id = bill.id then
          calculate_totals
            { bill with items := bill.items.filter (fun it => it.id != item.id) }
          else b)
        (fun b => by
          by_cases h : b.id = bill.id
          · simp only [if_pos h]
            exact h.symm
          · simp only [if_neg h])
      rw [hmap, hb, Option.map_some', if_pos rfl]
    · rw [calculate_totals_subtotal, calculate_totals_total]
      rw [show ({ bill with
            items := bill.items.filter (fun it => it.id != item.id) } : Bill).items
          = bill.items.filter (fun it => it.id != item.id) from rfl]
      rfl

/-- C6 witness: voiding pending item 11 (qty 2) restores stock 5 → 7 and
the stored bill's subtotal drops to the remaining item's 100. -/

theorem void_pending_item_spec_witness :
    qtyOf (void_bill_item item_ex_db 1 11).1.products 1 = some 7 ∧
    (∃ b', find_bill (void_bill_item item_ex_db 1 11).1.bills 1 = some b' ∧
      b'.subtotal = 100) := by
  have h := void_pending_item_spec item_ex_db 1 11 item_ex_bill
    { id := 11, bill_id := 1, product_id := 1, product_name := "Keyboard",
      sell_price := 100, quantity := 2, total := 200, item_status := "pending" }
    rfl rfl rfl rfl
  constructor
  · rw [h.2.1 1]
    decide
  · obtain ⟨b', hfind, -, hsub, -⟩ := h.2.2.1
    refine ⟨b', hfind, ?_⟩
    rw [hsub]
    norm_num [item_ex_bill]

/-- C7 counterexample: voiding the already-completed item 12 does not
fail — `void_bill_item` has no pending-status guard.  The call returns
success and the item is removed from the stored bill (stock, correctly,
stays at 5). -/

theorem void_completed_item_counterexample :
    (void_bill_item item_ex_db 1 12).2 = Except.ok () ∧
    (void_bill_item item_ex_db 1 12).1.products = item_ex_db.products ∧
    find_item (void_bill_item item_ex_db 1 12).1.bills 12 = none := by
  refine ⟨rfl, rfl, ?_⟩
  decide

/-- C7 (amended): voiding an item whose status is `'completed'` does not
fail with a state error: the call succeeds, product stock is left
entirely unchanged (completed items are not restocked), payments are left
unchanged, and the item is removed from the bill with the totals
recomputed over the remaining items. -/

theorem void_completed_item_spec (db : DB) (bid iid : Nat) (bill : Bill) (item : BillItem)
    (hb : find_bill db.bills bid = some bill)
    (hi : find_item db.bills iid = some item)
    (hbel : item.bill_id = bill.id)
    (hst : item.item_status = "completed") :
    (void_bill_item db bid iid).2 = Except.ok () ∧
    (void_bill_item db bid iid).1.products = db.products ∧
    (∃ b', find_bill (void_bill_item db bid iid).1.bills bid = some b' ∧
        b'.items = bill.items.filter (fun it => it.id != item.id) ∧
        b'.subtotal
          = ((bill.items.filter (fun it => it.id != item.id)).map BillItem.total).sum) ∧
    (void_bill_item db bid iid).1.payments = db.payments := by
  rw [void_bill_item_owned_eq db bid iid bill item hb hi hbel]
  rw [if_neg (by rw [hst]; simp)]
  refine ⟨rfl, rfl, ?_, rfl⟩
  refine ⟨calculate_totals
    { bill with items := bill.items.filter (fun it => it.id != item.id) }, ?_, rfl, rfl⟩
  have hmap := find_bill_map_id db.bills bid
    (fun b => if b.id = bill.id then
      calculate_totals
        { bill with items := bill.items.filter (fun it => it.id != item.id) }
      else b)
    (fun b => by
      by_cases h : b.id = bill.id
      · simp only [if_pos h]
        exact h.symm
      · simp only [if_neg h])
  rw [hmap, hb, Option.map_some', if_pos rfl]

/-- C7 witness: the concrete completed item 12 of `item_ex_db` is voided
without touching stock. -/

theorem void_completed_item_spec_witness :
    (void_bill_item item_ex_db 1 12).1.products = item_ex_db.products ∧
    (void_bill_item item_ex_db 1 12).2 = Except.ok () := by
  have h := void_completed_item_spec item_ex_db 1 12 item_ex_bill
    { id := 12, bill_id := 1, product_id := 1, product_name := "Keyboard",
      sell_price := 100, quantity := 1, total := 100, item_status := "completed" }
    rfl rfl rfl rfl
  exact ⟨h.2.1, h.1⟩

/-- C8: completing a pending item of the bill flips only that item's
status to `'completed'` — product stock and payments are untouched —
while completing an already-completed item fails with
`itemAlreadyCompleted` and leaves the whole store unchanged. -/

theorem complete_item_spec (db : DB) (bid iid : Nat) (bill : Bill) (item : BillItem)
    (hb : find_bill db.bills bid = some bill)
    (hi : find_item db.bills iid = some item)
    (hbel : item.bill_id = bill.id) :
    (item.item_status = "pending" →
      (complete_bill_item db bid iid).2 = Except.ok () ∧
      (complete_bill_item db bid iid).1.products = db.products ∧
      (complete_bill_item db bid iid).1.payments = db.payments ∧
      (∃ b', find_bill (complete_bill_item db bid iid).1.bills bid = some b' ∧
        b'.items = bill.items.map (fun it =>
          if it.id = item.id then { it with item_status := "completed" } else it))) ∧
    (item.item_status = "completed" →
      complete_bill_item db bid iid = (db, Except.error BillingErr.itemAlreadyCompleted)) := by
  rw [complete_bill_item_owned_eq db bid iid bill item hb hi hbel]
  constructor
  · intro hst
    rw [if_neg (by rw [hst]; simp)]
    refine ⟨rfl, rfl, rfl, ?_⟩
    refine ⟨{ bill with items := bill.items.map (fun it =>
      if it.id = item.id then { it with item_status := "completed" } else it) }, ?_, rfl⟩
    have hmap := find_bill_map_id db.bills bid
      (fun b => if b.id = bill.id then
        { b with items := b.items.map (fun it =>
            if it.id = item.id then { it with item_status := "completed" } else it) }
        else b)
      (fun b => by
        by_cases h : b.id = bill.id
        · simp only [if_pos h]
        · simp only [if_neg h])
    rw [hmap, hb, Option.map_some', if_pos rfl]
  · intro hst
    rw [if_pos (by rw [hst]; simp)]

/-- C8 witness: completing pending item 11 of `item_ex_db` succeeds with
stock untouched, and completing the already-completed item 12 returns the
`itemAlreadyCompleted` error with the store unchanged. -/

theorem complete_item_spec_witness :
    ((complete_bill_item item_ex_db 1 11).2 = Except.ok () ∧
      (complete_bill_item item_ex_db 1 11).1.products = item_ex_db.products) ∧
    complete_bill_item item_ex_db 1 12
      = (item_ex_db, Except.error BillingErr.itemAlreadyCompleted) := by
  constructor
  · have h := (complete_item_spec item_ex_db 1 11 item_ex_bill
      { id := 11, bill_id := 1, product_id := 1, product_name := "Keyboard",
        sell_price := 100, quantity := 2, total := 200, item_status := "pending" }
      rfl rfl rfl).1 rfl
    exact ⟨h.1, h.2.1⟩
  · exact (complete_item_spec item_ex_db 1 12 item_ex_bill
      { id := 12, bill_id := 1, product_id := 1, product_name := "Keyboard",
        sell_price := 100, quantity := 1, total := 100, item_status := "completed" }
      rfl rfl rfl).2 rfl

/-- C10: when the item exists but belongs to a different bill than the
one named in the route, both `complete_bill_item` and `void_bill_item`
return the "Item does not belong to this bill" error and leave the store
(products, every bill, payments) exactly unchanged. -/

theorem item_not_of_bill_spec (db : DB) (bid iid : Nat) (bill : Bill) (item : BillItem)
    (hb : find_bill db.bills bid = some bill)
    (hi : find_item db.bills iid = some item)
    (hne : item.bill_id ≠ bill.id) :
    complete_bill_item db bid iid = (db, Except.error BillingErr.itemNotOfBill) ∧
    void_bill_item db bid iid = (db, Except.error BillingErr.itemNotOfBill) ∧
    billing_error_message BillingErr.itemNotOfBill = "Item does not belong to this bill" :=
  ⟨complete_bill_item_not_owned_eq db bid iid bill item hb hi hne,
   void_bill_item_not_owned_eq db bid iid bill item hb hi hne, rfl⟩

/-- C10 witness: completing or voiding item 21 (owned by bill 2) through
bill 1 fails with the ownership error and changes nothing. -/

theorem item_not_of_bill_spec_witness :
    complete_bill_item two_bill_db 1 21
      = (two_bill_db, Except.error BillingErr.itemNotOfBill) ∧
    void_bill_item two_bill_db 1 21
      = (two_bill_db, Except.error BillingErr.itemNotOfBill) := by
  have h := item_not_of_bill_spec two_bill_db 1 21 item_ex_bill
    { id := 21, bill_id := 2, product_id := 1, product_name := "Keyboard",
      sell_price := 100, quantity := 1, total := 100, item_status := "pending" }
    rfl rfl (by decide)
  exact ⟨h.1, h.2.1⟩

/-- C9 counterexample: with a collision oracle under which every
candidate number already exists, the loop has still not returned after 64
iterations — the source's `while True:` has no retry cap and no error
exit, so generation does not "fail with an error" in the pathological
case. -/

theorem generate_bill_number_uncapped_counterexample :
    generate_unique_bill_number "250101" (fun _ => "AAAAAAAA") (fun _ => true) 64 0
      = none := by
  decide

/-- C9 (amended): bill-number generation retries drawing a date-prefixed
random suffix until the number matches no existing bill: any value it
returns is fresh and has the `BT-<date>-<suffix>` shape.  The loop is
uncapped — when every candidate collides it returns nothing for every
iteration bound, looping forever instead of failing with an error. -/

theorem generate_bill_number_loop (date_str : String) (rand : Nat → String)
    (existing : String → Bool) :
    (∀ fuel i bn,
        generate_unique_bill_number date_str rand existing fuel i = some bn →
        existing bn = false ∧
        ∃ k, i ≤ k ∧ k < i + fuel ∧ bn = mk_bill_number date_str (rand k)) ∧
    (∀ fuel i, (∀ s, existing (mk_bill_number date_str s) = true) →
        generate_unique_bill_number date_str rand existing fuel i = none) := by
  constructor
  · intro fuel
    induction fuel with
    | zero => intro i bn h; simp [generate_unique_bill_number] at h
    | succ n ih =>
      intro i bn h
      rw [generate_unique_bill_number] at h
      by_cases hex : existing (mk_bill_number date_str (rand i)) = true
      · rw [if_pos hex] at h
        obtain ⟨h1, k, hk1, hk2, hk3⟩ := ih (i + 1) bn h
        exact ⟨h1, k, by omega, by omega, hk3⟩
      · rw [if_neg hex] at h
        injection h with h'
        subst h'
        exact ⟨Bool.not_eq_true _ ▸ hex, i, le_refl i, by omega, rfl⟩
  · intro fuel
    induction fuel with
    | zero => intro i hall; rfl
    | succ n ih =>
      intro i hall
      rw [generate_unique_bill_number, if_pos (hall (rand i))]
      exact ih (i + 1) hall

/-- C9 witness: with no stored bills, the first draw is returned, it is
fresh and has the date-prefixed shape. -/

theorem generate_bill_number_loop_witness :
    (fun _ : String => false) "BT-250101-X8ZQ2W9A" = false ∧
    ∃ k, 0 ≤ k ∧ k < 0 + 1 ∧
      "BT-250101-X8ZQ2W9A" = mk_bill_number "250101" ((fun _ : Nat => "X8ZQ2W9A") k) :=
  (generate_bill_number_loop "250101" (fun _ => "X8ZQ2W9A") (fun _ => false)).1 1 0
    "BT-250101-X8ZQ2W9A" (by decide)
